import Mathlib

/-!
Verification development for the HDC2080 temperature/humidity sensor driver
(`hdc2080.py`).  The driver is shallowly embedded: every public method is
modelled by

  * a pure value function describing the byte(s) it writes or the physical
    quantity it returns, as a function of the byte(s) the transport returned
    for its register reads, and
  * a bus trace (a list of one-byte register transactions, plus the sleep
    inside `reset`), as a function of an oracle giving the byte returned by
    the k-th read of the call.

Python floats are modelled by the rationals; `int(...)` is truncation toward
zero and `& 0xFF` is the Euclidean remainder by 256, matching Python integer
semantics.
-/

namespace HDC2080

/-! ## Register map (module-level constants of the source) -/

def TEMP_LOW : Nat := 0x00
def TEMP_HIGH : Nat := 0x01
def HUMID_LOW : Nat := 0x02
def HUMID_HIGH : Nat := 0x03
def INTERRUPT_DRDY : Nat := 0x04
def TEMP_MAX : Nat := 0x05
def HUMID_MAX : Nat := 0x06
def INTERRUPT_CONFIG : Nat := 0x07
def TEMP_OFFSET_ADJ : Nat := 0x08
def HUM_OFFSET_ADJ : Nat := 0x09
def TEMP_THR_L : Nat := 0x0A
def TEMP_THR_H : Nat := 0x0B
def HUMID_THR_L : Nat := 0x0C
def HUMID_THR_H : Nat := 0x0D
def CONFIG : Nat := 0x0E
def MEAS_CFG : Nat := 0x0F
def MID_L : Nat := 0xFC
def MID_H : Nat := 0xFD
def DEVICE_ID_L : Nat := 0xFE
def DEVICE_ID_H : Nat := 0xFF

/-! ## Settings constants (Python ints, so arguments are modelled as `Int`) -/

def FOURTEEN_BIT : Int := 0
def ELEVEN_BIT : Int := 1
def NINE_BIT : Int := 2

def TEMP_AND_HUMID : Int := 0
def TEMP_ONLY : Int := 1
def HUMID_ONLY : Int := 2

def MANUAL : Int := 0
def TWO_MINS : Int := 1
def ONE_MINS : Int := 2
def TEN_SECONDS : Int := 3
def FIVE_SECONDS : Int := 4
def ONE_HZ : Int := 5
def TWO_HZ : Int := 6
def FIVE_HZ : Int := 7

def ACTIVE_LOW : Int := 0
def ACTIVE_HIGH : Int := 1

def LEVEL_MODE : Int := 0
def COMPARATOR_MODE : Int := 1

/-! ## Python integer primitives -/

/-- Python `int(q)` for a float `q`: truncation toward zero. -/
def pyInt (q : ℚ) : Int := q.num.tdiv (q.den : Int)

/-- Python `v & 0xFF` on an arbitrary (possibly negative) int: the
Euclidean remainder modulo 256. -/
def byteOfInt (v : Int) : Nat := (v % 256).toNat

/-! ## Measurement conversion (`read_temp`, `read_humidity`), as functions
of the two bytes returned by the transport for the low/high registers. -/

/-- Body of `read_temp` after the two register reads: raw 16-bit assembly
`(high << 8) | low`, then `f * 165.0 / 65536.0 - 40.5`. -/
def read_temp_val (low high : Nat) : ℚ :=
  let raw : Nat := (high <<< 8) ||| low
  let f : ℚ := (raw : ℚ)
  f * 165 / 65536 - 40.5

/-- Body of `read_humidity` after the two register reads:
`raw / 65536.0 * 100.0`. -/
def read_humidity_val (low high : Nat) : ℚ :=
  let raw : Nat := (high <<< 8) ||| low
  let f : ℚ := (raw : ℚ)
  f / 65536 * 100

/-- `read_max_temp` conversion: `v * 165.0 / 256.0 - 40.0`. -/
def read_max_temp_val (v : Nat) : ℚ := (v : ℚ) * 165 / 256 - 40

/-- `read_max_humidity` conversion: `v / 256.0 * 100.0`. -/
def read_max_humidity_val (v : Nat) : ℚ := (v : ℚ) / 256 * 100

/-! ## Threshold setters and readers -/

/-- The clamp performed at the top of `set_low_temp` / `set_high_temp`:
`if t < -40.0: t = -40.0 elif t > 125.0: t = 125.0`. -/
def clampTemp (t : ℚ) : ℚ := if t < -40 then -40 else if t > 125 then 125 else t

/-- The clamp performed at the top of `set_low_humidity` /
`set_high_humidity`: `if rh < 0.0: rh = 0.0 elif rh > 100.0: rh = 100.0`. -/
def clampHumid (rh : ℚ) : ℚ := if rh < 0 then 0 else if rh > 100 then 100 else rh

/-- Byte written by `set_low_temp` / `set_high_temp`:
`int(256.0 * (temp_c + 40.0) / 165.0) & 0xFF` after clamping. -/
def set_temp_thr_val (temp_c : ℚ) : Nat :=
  byteOfInt (pyInt (256 * (clampTemp temp_c + 40) / 165))

/-- Byte written by `set_low_humidity` / `set_high_humidity`:
`int(256.0 * rh / 100.0) & 0xFF` after clamping. -/
def set_humid_thr_val (rh : ℚ) : Nat :=
  byteOfInt (pyInt (256 * clampHumid rh / 100))

/-- `read_low_temp_threshold` / `read_high_temp_threshold` conversion:
`v * 165.0 / 256.0 - 40.0`. -/
def read_temp_threshold_val (v : Nat) : ℚ := (v : ℚ) * 165 / 256 - 40

/-- `read_low_humidity_threshold` / `read_high_humidity_threshold`
conversion: `v * 100.0 / 256.0`. -/
def read_humid_threshold_val (v : Nat) : ℚ := (v : ℚ) * 100 / 256

/-! ## Read-modify-write bodies: byte written as a function of the byte read -/

/-- `enable_heater`: `c |= 0x08` on CONFIG. -/
def enable_heater_write (c : Nat) : Nat := c ||| 0x08

/-- `disable_heater`: `c &= 0xF7` on CONFIG. -/
def disable_heater_write (c : Nat) : Nat := c &&& 0xF7

/-- `reset`: `c |= 0x80` on CONFIG, then `time.sleep_ms(50)`. -/
def reset_write (c : Nat) : Nat := c ||| 0x80

/-- `enable_interrupt`: `c |= 0x04` on CONFIG. -/
def enable_interrupt_write (c : Nat) : Nat := c ||| 0x04

/-- `disable_interrupt`: `c &= 0xFB` on CONFIG. -/
def disable_interrupt_write (c : Nat) : Nat := c &&& 0xFB

/-- `trigger_measurement`: `c |= 0x01` on MEAS_CFG. -/
def trigger_measurement_write (c : Nat) : Nat := c ||| 0x01

/-- `enable_threshold_interrupt`: `c |= 0x78` on INTERRUPT_CONFIG. -/
def enable_threshold_interrupt_write (c : Nat) : Nat := c ||| 0x78

/-- `disable_threshold_interrupt`: `c &= 0x87` on INTERRUPT_CONFIG. -/
def disable_threshold_interrupt_write (c : Nat) : Nat := c &&& 0x87

/-- `enable_drdy_interrupt`: `c |= 0x80` on INTERRUPT_CONFIG. -/
def enable_drdy_interrupt_write (c : Nat) : Nat := c ||| 0x80

/-- `disable_drdy_interrupt`: `c &= 0x7F` on INTERRUPT_CONFIG. -/
def disable_drdy_interrupt_write (c : Nat) : Nat := c &&& 0x7F

/-! ## Case-dispatched setters: byte written as a function of the Python
argument and the byte read (the if/elif/else chains of the source). -/

/-- `set_temp_res` body on MEAS_CFG. -/
def set_temp_res_write (resolution : Int) (c : Nat) : Nat :=
  if resolution = FOURTEEN_BIT then c &&& 0x3F
  else if resolution = ELEVEN_BIT then (c &&& 0x7F) ||| 0x40
  else if resolution = NINE_BIT then (c &&& 0xBF) ||| 0x80
  else c &&& 0x3F

/-- `set_humid_res` body on MEAS_CFG. -/
def set_humid_res_write (resolution : Int) (c : Nat) : Nat :=
  if resolution = FOURTEEN_BIT then c &&& 0xCF
  else if resolution = ELEVEN_BIT then (c &&& 0xDF) ||| 0x10
  else if resolution = NINE_BIT then (c &&& 0xEF) ||| 0x20
  else c &&& 0xCF

/-- `set_measurement_mode` body on MEAS_CFG. -/
def set_measurement_mode_write (mode : Int) (c : Nat) : Nat :=
  if mode = TEMP_AND_HUMID then c &&& 0xF9
  else if mode = TEMP_ONLY then (c &&& 0xFC) ||| 0x02
  else if mode = HUMID_ONLY then (c &&& 0xFD) ||| 0x04
  else c &&& 0xF9

/-- `set_rate` body on CONFIG. -/
def set_rate_write (rate : Int) (c : Nat) : Nat :=
  if rate = MANUAL then c &&& 0x8F
  else if rate = TWO_MINS then (c &&& 0x9F) ||| 0x10
  else if rate = ONE_MINS then (c &&& 0xAF) ||| 0x20
  else if rate = TEN_SECONDS then (c &&& 0xBF) ||| 0x30
  else if rate = FIVE_SECONDS then (c &&& 0xCF) ||| 0x40
  else if rate = ONE_HZ then (c &&& 0xDF) ||| 0x50
  else if rate = TWO_HZ then (c &&& 0xEF) ||| 0x60
  else if rate = FIVE_HZ then c ||| 0x70
  else c &&& 0x8F

/-- `set_interrupt_polarity` body on CONFIG. -/
def set_interrupt_polarity_write (polarity : Int) (c : Nat) : Nat :=
  if polarity = ACTIVE_LOW then c &&& 0xFD
  else if polarity = ACTIVE_HIGH then c ||| 0x02
  else c &&& 0xFD

/-- `set_interrupt_mode` body on CONFIG. -/
def set_interrupt_mode_write (mode : Int) (c : Nat) : Nat :=
  if mode = LEVEL_MODE then c &&& 0xFE
  else if mode = COMPARATOR_MODE then c ||| 0x01
  else c &&& 0xFE

/-! ## Bus traces

Each one-byte bus transaction issued through `_read_reg` / `_write_reg` is
one `DriverOp`; the `time.sleep_ms` call inside `reset` is also recorded so
that the ordering of the settling delay relative to the bus traffic is
visible. -/

/-- One observable step of a driver method: a one-byte register read
transaction, a one-byte register write transaction (carrying the byte
actually put on the bus), or a sleep. -/
inductive DriverOp where
  | readReg (reg : Nat)
  | writeReg (reg : Nat) (value : Nat)
  | sleepMs (ms : Nat)
  deriving DecidableEq, Repr

/-- `_write_reg(reg, value)` for a natural value: transmits `value & 0xFF`. -/
def write_reg (reg : Nat) (value : Nat) : DriverOp := .writeReg reg (value &&& 0xFF)

/-- `_write_reg(reg, value)` for a Python int value (offset-adjust setters
accept arbitrary ints): transmits `value & 0xFF`. -/
def write_reg_int (reg : Nat) (value : Int) : DriverOp := .writeReg reg (byteOfInt value)

/-- The byte produced by the k-th `_read_reg` call of a method, for a
transport oracle `r`; a one-byte read always yields a value in [0, 255]. -/
def read_byte (r : Nat → Nat) (k : Nat) : Nat := r k % 256

/-- A public driver call together with its Python arguments. -/
inductive Call where
  | is_connected
  | read_temp
  | read_humidity
  | read_temp_offset_adjust
  | set_temp_offset_adjust (value : Int)
  | read_humidity_offset_adjust
  | set_humidity_offset_adjust (value : Int)
  | enable_heater
  | disable_heater
  | set_low_temp (temp_c : ℚ)
  | set_high_temp (temp_c : ℚ)
  | set_high_humidity (rh : ℚ)
  | set_low_humidity (rh : ℚ)
  | read_low_humidity_threshold
  | read_high_humidity_threshold
  | read_low_temp_threshold
  | read_high_temp_threshold
  | set_temp_res (resolution : Int)
  | set_humid_res (resolution : Int)
  | set_measurement_mode (mode : Int)
  | trigger_measurement
  | reset
  | enable_interrupt
  | disable_interrupt
  | set_rate (rate : Int)
  | set_interrupt_polarity (polarity : Int)
  | set_interrupt_mode (mode : Int)
  | read_interrupt_status
  | clear_max_temp
  | clear_max_humidity
  | read_max_temp
  | read_max_humidity
  | enable_threshold_interrupt
  | disable_threshold_interrupt
  | enable_drdy_interrupt
  | disable_drdy_interrupt

/-- The sequence of bus transactions (and sleeps) issued by one public
call, given the oracle `r` for the bytes its register reads return.
`is_connected` only queries the bus scan and issues no register
transaction. -/
def trace : Call → (Nat → Nat) → List DriverOp
  | .is_connected, _ => []
  | .read_temp, _ => [.readReg TEMP_LOW, .readReg TEMP_HIGH]
  | .read_humidity, _ => [.readReg HUMID_LOW, .readReg HUMID_HIGH]
  | .read_temp_offset_adjust, _ => [.readReg TEMP_OFFSET_ADJ]
  | .set_temp_offset_adjust v, _ =>
      [write_reg_int TEMP_OFFSET_ADJ v, .readReg TEMP_OFFSET_ADJ]
  | .read_humidity_offset_adjust, _ => [.readReg HUM_OFFSET_ADJ]
  | .set_humidity_offset_adjust v, _ =>
      [write_reg_int HUM_OFFSET_ADJ v, .readReg HUM_OFFSET_ADJ]
  | .enable_heater, r =>
      [.readReg CONFIG, write_reg CONFIG (enable_heater_write (read_byte r 0))]
  | .disable_heater, r =>
      [.readReg CONFIG, write_reg CONFIG (disable_heater_write (read_byte r 0))]
  | .set_low_temp t, _ => [write_reg TEMP_THR_L (set_temp_thr_val t)]
  | .set_high_temp t, _ => [write_reg TEMP_THR_H (set_temp_thr_val t)]
  | .set_high_humidity rh, _ => [write_reg HUMID_THR_H (set_humid_thr_val rh)]
  | .set_low_humidity rh, _ => [write_reg HUMID_THR_L (set_humid_thr_val rh)]
  | .read_low_humidity_threshold, _ => [.readReg HUMID_THR_L]
  | .read_high_humidity_threshold, _ => [.readReg HUMID_THR_H]
  | .read_low_temp_threshold, _ => [.readReg TEMP_THR_L]
  | .read_high_temp_threshold, _ => [.readReg TEMP_THR_H]
  | .set_temp_res res, r =>
      [.readReg MEAS_CFG, write_reg MEAS_CFG (set_temp_res_write res (read_byte r 0))]
  | .set_humid_res res, r =>
      [.readReg MEAS_CFG, write_reg MEAS_CFG (set_humid_res_write res (read_byte r 0))]
  | .set_measurement_mode m, r =>
      [.readReg MEAS_CFG, write_reg MEAS_CFG (set_measurement_mode_write m (read_byte r 0))]
  | .trigger_measurement, r =>
      [.readReg MEAS_CFG, write_reg MEAS_CFG (trigger_measurement_write (read_byte r 0))]
  | .reset, r =>
      [.readReg CONFIG, write_reg CONFIG (reset_write (read_byte r 0)), .sleepMs 50]
  | .enable_interrupt, r =>
      [.readReg CONFIG, write_reg CONFIG (enable_interrupt_write (read_byte r 0))]
  | .disable_interrupt, r =>
      [.readReg CONFIG, write_reg CONFIG (disable_interrupt_write (read_byte r 0))]
  | .set_rate rate, r =>
      [.readReg CONFIG, write_reg CONFIG (set_rate_write rate (read_byte r 0))]
  | .set_interrupt_polarity p, r =>
      [.readReg CONFIG, write_reg CONFIG (set_interrupt_polarity_write p (read_byte r 0))]
  | .set_interrupt_mode m, r =>
      [.readReg CONFIG, write_reg CONFIG (set_interrupt_mode_write m (read_byte r 0))]
  | .read_interrupt_status, _ => [.readReg INTERRUPT_DRDY]
  | .clear_max_temp, _ => [write_reg TEMP_MAX 0x00]
  | .clear_max_humidity, _ => [write_reg HUMID_MAX 0x00]
  | .read_max_temp, _ => [.readReg TEMP_MAX]
  | .read_max_humidity, _ => [.readReg HUMID_MAX]
  | .enable_threshold_interrupt, r =>
      [.readReg INTERRUPT_CONFIG,
       write_reg INTERRUPT_CONFIG (enable_threshold_interrupt_write (read_byte r 0))]
  | .disable_threshold_interrupt, r =>
      [.readReg INTERRUPT_CONFIG,
       write_reg INTERRUPT_CONFIG (disable_threshold_interrupt_write (read_byte r 0))]
  | .enable_drdy_interrupt, r =>
      [.readReg INTERRUPT_CONFIG,
       write_reg INTERRUPT_CONFIG (enable_drdy_interrupt_write (read_byte r 0))]
  | .disable_drdy_interrupt, r =>
      [.readReg INTERRUPT_CONFIG,
       write_reg INTERRUPT_CONFIG (disable_drdy_interrupt_write (read_byte r 0))]

/-- Register addresses of the write transactions in a trace. -/
def writeAddrs : List DriverOp → List Nat
  | [] => []
  | DriverOp.writeReg reg _ :: rest => reg :: writeAddrs rest
  | DriverOp.readReg _ :: rest => writeAddrs rest
  | DriverOp.sleepMs _ :: rest => writeAddrs rest

/-- Number of write transactions in a trace. -/
def countWrites (t : List DriverOp) : Nat := (writeAddrs t).length

/-- Whether a `DriverOp` is a bus transaction (read or write), as opposed
to a sleep. -/
def isBusOp : DriverOp → Bool
  | .readReg _ => true
  | .writeReg _ _ => true
  | .sleepMs _ => false

/-- Number of one-byte bus transactions in a trace. -/
def busTransactions (t : List DriverOp) : Nat := (t.filter isBusOp).length

/-- Number of bit positions (within one byte) at which two bytes differ. -/
def diffBits (a b : Nat) : Nat :=
  ((List.range 8).filter fun i => a.testBit i != b.testBit i).length

/-! ## Helper lemmas -/

theorem read_byte_lt (r : Nat → Nat) (k : Nat) : read_byte r k < 256 :=
  Nat.mod_lt _ (by decide)

set_option maxRecDepth 4096 in
theorem or80_mask_byte : ∀ c < 256, (c ||| 0x80) &&& 0xFF = c ||| 0x80 := by decide

/-- Behaviour of the Python truncating division on a nonnegative integer
rational: for our clamped inputs it agrees with the floor. -/
theorem clampTemp_clampTemp (t : ℚ) : clampTemp (clampTemp t) = clampTemp t := by
  unfold clampTemp
  split_ifs <;> first | rfl | linarith

theorem clampHumid_clampHumid (rh : ℚ) : clampHumid (clampHumid rh) = clampHumid rh := by
  unfold clampHumid
  split_ifs <;> first | rfl | linarith

theorem clampTemp_mem (t : ℚ) : -40 ≤ clampTemp t ∧ clampTemp t ≤ 125 := by
  unfold clampTemp
  split_ifs with h1 h2
  · norm_num
  · norm_num
  · exact ⟨not_lt.mp h1, not_lt.mp h2⟩

theorem clampHumid_mem (rh : ℚ) : 0 ≤ clampHumid rh ∧ clampHumid rh ≤ 100 := by
  unfold clampHumid
  split_ifs with h1 h2
  · norm_num
  · norm_num
  · exact ⟨not_lt.mp h1, not_lt.mp h2⟩

theorem clampTemp_of_ge (t : ℚ) (h : 125 ≤ t) : clampTemp t = 125 := by
  unfold clampTemp
  split_ifs with h1 h2
  · linarith
  · rfl
  · exact le_antisymm (not_lt.mp h2) h

theorem clampHumid_of_ge (rh : ℚ) (h : 100 ≤ rh) : clampHumid rh = 100 := by
  unfold clampHumid
  split_ifs with h1 h2
  · linarith
  · rfl
  · exact le_antisymm (not_lt.mp h2) h

theorem set_temp_thr_val_at_125 : set_temp_thr_val 125 = 0 := by
  have h : clampTemp (125 : ℚ) = 125 := clampTemp_of_ge 125 le_rfl
  unfold set_temp_thr_val
  rw [h]
  norm_num [byteOfInt, pyInt]

theorem set_humid_thr_val_at_100 : set_humid_thr_val 100 = 0 := by
  have h : clampHumid (100 : ℚ) = 100 := clampHumid_of_ge 100 le_rfl
  unfold set_humid_thr_val
  rw [h]
  norm_num [byteOfInt, pyInt]

theorem set_temp_thr_val_at_25 : set_temp_thr_val 25 = 100 := by
  have h : clampTemp (25 : ℚ) = 25 := by unfold clampTemp; norm_num
  unfold set_temp_thr_val
  rw [h]
  norm_num [byteOfInt, pyInt]
  decide

set_option maxRecDepth 8192 in
theorem fallback_mask_facts : ∀ c < 256,
    (c &&& 0x3F) &&& 0xC0 = 0 ∧ (c &&& 0x3F) &&& 0x3F = c &&& 0x3F ∧
    (c &&& 0xCF) &&& 0x30 = 0 ∧ (c &&& 0xCF) &&& 0xCF = c &&& 0xCF ∧
    (c &&& 0xF9) &&& 0x06 = 0 ∧ (c &&& 0xF9) &&& 0xF9 = c &&& 0xF9 ∧
    (c &&& 0x8F) &&& 0x70 = 0 ∧ (c &&& 0x8F) &&& 0x8F = c &&& 0x8F ∧
    (c &&& 0xFD) &&& 0x02 = 0 ∧ (c &&& 0xFD) &&& 0xFD = c &&& 0xFD ∧
    (c &&& 0xFE) &&& 0x01 = 0 ∧ (c &&& 0xFE) &&& 0xFE = c &&& 0xFE := by decide

/-! ## Claims -/

/-- C1.  For every pair of bytes `(low, high)` returned by the transport for
registers 0x00 and 0x01 (read in that order, see the trace conjunct),
`read_temp` forms the unsigned 16-bit integer `raw = (high <<< 8) ||| low`
(equal to `256 * high + low` and below 65536) and returns exactly
`raw * 165 / 65536 - 40.5`. -/
theorem C1_read_temp_conversion (low high : Nat) (hl : low < 256) (hh : high < 256) :
    read_temp_val low high =
      (((high <<< 8) ||| low : Nat) : ℚ) * 165 / 65536 - 40.5 ∧
    (high <<< 8) ||| low = 256 * high + low ∧
    (high <<< 8) ||| low < 65536 ∧
    (∀ r : Nat → Nat, trace Call.read_temp r = [.readReg TEMP_LOW, .readReg TEMP_HIGH]) := by
  refine ⟨rfl, ?_, ?_, fun r => rfl⟩
  · have := Nat.mul_add_lt_is_or (i := 8) (b := low) hl high
    rw [Nat.shiftLeft_eq, Nat.mul_comm]
    omega
  · have := Nat.append_lt (n := 8) (m := 8) hl hh
    omega

/-- Witness for C1 at the concrete byte pair low = 0x00, high = 0x80. -/
theorem C1_read_temp_conversion_witness :
    read_temp_val 0x00 0x80 =
      (((0x80 <<< 8) ||| 0x00 : Nat) : ℚ) * 165 / 65536 - 40.5 ∧
    (0x80 <<< 8) ||| 0x00 = 256 * 0x80 + 0x00 ∧
    (0x80 <<< 8) ||| 0x00 < 65536 ∧
    (∀ r : Nat → Nat, trace Call.read_temp r = [.readReg TEMP_LOW, .readReg TEMP_HIGH]) :=
  C1_read_temp_conversion 0x00 0x80 (by decide) (by decide)

set_option maxRecDepth 8192 in
/-- C2.  For every initial byte of the measurement-configuration register,
running `set_temp_res(NINE_BIT)` and then `set_humid_res(ELEVEN_BIT)` leaves
the measurement-mode bits (bits 2:1) and the trigger bit (bit 0) unchanged;
each of the two resolution writes differs from the byte it read only inside
its own 2-bit field (bits 7:6 for temperature, bits 5:4 for humidity). -/
theorem C2_resolution_setters_frame (c : Nat) (hc : c < 256) :
    set_humid_res_write ELEVEN_BIT (set_temp_res_write NINE_BIT c) &&& 0x07 =
      c &&& 0x07 ∧
    set_temp_res_write NINE_BIT c &&& 0x3F = c &&& 0x3F ∧
    set_humid_res_write ELEVEN_BIT (set_temp_res_write NINE_BIT c) &&& 0xCF =
      set_temp_res_write NINE_BIT c &&& 0xCF := by
  revert hc
  revert c
  decide

/-- Witness for C2 at the concrete initial register byte 0xAB. -/
theorem C2_resolution_setters_frame_witness :
    set_humid_res_write ELEVEN_BIT (set_temp_res_write NINE_BIT 0xAB) &&& 0x07 =
      0xAB &&& 0x07 ∧
    set_temp_res_write NINE_BIT 0xAB &&& 0x3F = 0xAB &&& 0x3F ∧
    set_humid_res_write ELEVEN_BIT (set_temp_res_write NINE_BIT 0xAB) &&& 0xCF =
      set_temp_res_write NINE_BIT 0xAB &&& 0xCF :=
  C2_resolution_setters_frame 0xAB (by decide)

/-- C3, counterexample.  The claim says the value written back by
`enable_threshold_interrupt` differs from the value read in exactly one bit
position; with the register reading 0x00 the driver writes 0x78, which
differs in four bit positions, not one. -/
theorem C3_single_bit_counterexample :
    ¬ (diffBits (enable_threshold_interrupt_write 0x00) 0x00 = 1) := by decide

set_option maxRecDepth 8192 in
/-- C3, amended.  `enable_threshold_interrupt` and
`disable_threshold_interrupt` each operate on the fixed four-bit field
0x78 (bits 6..3) of the interrupt-configuration register: enable ORs in
0x78 (setting all four threshold-interrupt bits), disable ANDs with 0x87
(clearing all four); for every initial byte the value written back agrees
with the value read on every bit outside that field. -/
theorem C3_threshold_interrupt_field (c : Nat) (hc : c < 256) :
    enable_threshold_interrupt_write c = c ||| 0x78 ∧
    disable_threshold_interrupt_write c = c &&& 0x87 ∧
    enable_threshold_interrupt_write c &&& 0x87 = c &&& 0x87 ∧
    disable_threshold_interrupt_write c &&& 0x87 = c &&& 0x87 ∧
    enable_threshold_interrupt_write c &&& 0x78 = 0x78 ∧
    disable_threshold_interrupt_write c &&& 0x78 = 0 := by
  revert hc
  revert c
  decide

/-- Witness for the amended C3 at the concrete initial register byte 0x55. -/
theorem C3_threshold_interrupt_field_witness :
    enable_threshold_interrupt_write 0x55 = 0x55 ||| 0x78 ∧
    disable_threshold_interrupt_write 0x55 = 0x55 &&& 0x87 ∧
    enable_threshold_interrupt_write 0x55 &&& 0x87 = 0x55 &&& 0x87 ∧
    disable_threshold_interrupt_write 0x55 &&& 0x87 = 0x55 &&& 0x87 ∧
    enable_threshold_interrupt_write 0x55 &&& 0x78 = 0x78 ∧
    disable_threshold_interrupt_write 0x55 &&& 0x78 = 0 :=
  C3_threshold_interrupt_field 0x55 (by decide)

/-- C4, counterexample.  The claim says `read_temp` obtains its low/high
register pair in a single bus transaction; in fact its trace consists of
two independent one-byte read transactions (registers 0x00 then 0x01), so
the number of bus transactions it issues is 2, not 1. -/
theorem C4_single_transaction_counterexample :
    trace Call.read_temp (fun _ => 0) =
      [DriverOp.readReg TEMP_LOW, DriverOp.readReg TEMP_HIGH] ∧
    ¬ (busTransactions (trace Call.read_temp (fun _ => 0)) = 1) :=
  ⟨rfl, by decide⟩

/-- C4, amended.  Each 16-bit measurement read issues exactly two
independent one-byte read transactions, the low-byte register first and the
high-byte register second (0x00 then 0x01 for temperature, 0x02 then 0x03
for humidity); it is not a single combined two-byte transaction, so the
transport can fail between the two bytes. -/
theorem C4_two_single_byte_reads (r : Nat → Nat) :
    trace Call.read_temp r = [DriverOp.readReg TEMP_LOW, DriverOp.readReg TEMP_HIGH] ∧
    trace Call.read_humidity r =
      [DriverOp.readReg HUMID_LOW, DriverOp.readReg HUMID_HIGH] ∧
    busTransactions (trace Call.read_temp r) = 2 ∧
    busTransactions (trace Call.read_humidity r) = 2 :=
  ⟨rfl, rfl, rfl, rfl⟩

set_option maxRecDepth 8192 in
/-- C5.  For every measurement-configuration or device-configuration byte
and every Python int argument outside the recognized enumeration, each
case-dispatched setter writes the documented fallback pattern into its own
bit field (14-bit resolution, 14-bit resolution, temperature+humidity,
manual rate, active-low polarity, level mode: in each case the all-zero
pattern of the field) and leaves every bit outside its field unchanged. -/
theorem C5_unrecognized_fallback (c : Nat) (hc : c < 256) (v3 v8 v2 : Int)
    (h3 : v3 ≠ FOURTEEN_BIT ∧ v3 ≠ ELEVEN_BIT ∧ v3 ≠ NINE_BIT)
    (h8 : v8 ≠ MANUAL ∧ v8 ≠ TWO_MINS ∧ v8 ≠ ONE_MINS ∧ v8 ≠ TEN_SECONDS ∧
      v8 ≠ FIVE_SECONDS ∧ v8 ≠ ONE_HZ ∧ v8 ≠ TWO_HZ ∧ v8 ≠ FIVE_HZ)
    (h2 : v2 ≠ ACTIVE_LOW ∧ v2 ≠ ACTIVE_HIGH) :
    set_temp_res_write v3 c = c &&& 0x3F ∧
    set_temp_res_write v3 c &&& 0xC0 = 0 ∧
    set_temp_res_write v3 c &&& 0x3F = c &&& 0x3F ∧
    set_humid_res_write v3 c = c &&& 0xCF ∧
    set_humid_res_write v3 c &&& 0x30 = 0 ∧
    set_humid_res_write v3 c &&& 0xCF = c &&& 0xCF ∧
    set_measurement_mode_write v3 c = c &&& 0xF9 ∧
    set_measurement_mode_write v3 c &&& 0x06 = 0 ∧
    set_measurement_mode_write v3 c &&& 0xF9 = c &&& 0xF9 ∧
    set_rate_write v8 c = c &&& 0x8F ∧
    set_rate_write v8 c &&& 0x70 = 0 ∧
    set_rate_write v8 c &&& 0x8F = c &&& 0x8F ∧
    set_interrupt_polarity_write v2 c = c &&& 0xFD ∧
    set_interrupt_polarity_write v2 c &&& 0x02 = 0 ∧
    set_interrupt_polarity_write v2 c &&& 0xFD = c &&& 0xFD ∧
    set_interrupt_mode_write v2 c = c &&& 0xFE ∧
    set_interrupt_mode_write v2 c &&& 0x01 = 0 ∧
    set_interrupt_mode_write v2 c &&& 0xFE = c &&& 0xFE := by
  obtain ⟨a1, a2, a3⟩ := h3
  obtain ⟨b1, b2, b3, b4, b5, b6, b7, b8⟩ := h8
  obtain ⟨d1, d2⟩ := h2
  simp only [FOURTEEN_BIT, ELEVEN_BIT, NINE_BIT] at a1 a2 a3
  simp only [MANUAL, TWO_MINS, ONE_MINS, TEN_SECONDS, FIVE_SECONDS, ONE_HZ,
    TWO_HZ, FIVE_HZ] at b1 b2 b3 b4 b5 b6 b7 b8
  simp only [ACTIVE_LOW, ACTIVE_HIGH] at d1 d2
  have e1 : set_temp_res_write v3 c = c &&& 0x3F := by
    simp only [set_temp_res_write, FOURTEEN_BIT, ELEVEN_BIT, NINE_BIT,
      if_neg a1, if_neg a2, if_neg a3]
  have e2 : set_humid_res_write v3 c = c &&& 0xCF := by
    simp only [set_humid_res_write, FOURTEEN_BIT, ELEVEN_BIT, NINE_BIT,
      if_neg a1, if_neg a2, if_neg a3]
  have e3 : set_measurement_mode_write v3 c = c &&& 0xF9 := by
    simp only [set_measurement_mode_write, TEMP_AND_HUMID, TEMP_ONLY, HUMID_ONLY,
      if_neg a1, if_neg a2, if_neg a3]
  have e4 : set_rate_write v8 c = c &&& 0x8F := by
    simp only [set_rate_write, MANUAL, TWO_MINS, ONE_MINS, TEN_SECONDS,
      FIVE_SECONDS, ONE_HZ, TWO_HZ, FIVE_HZ, if_neg b1, if_neg b2, if_neg b3,
      if_neg b4, if_neg b5, if_neg b6, if_neg b7, if_neg b8]
  have e5 : set_interrupt_polarity_write v2 c = c &&& 0xFD := by
    simp only [set_interrupt_polarity_write, ACTIVE_LOW, ACTIVE_HIGH,
      if_neg d1, if_neg d2]
  have e6 : set_interrupt_mode_write v2 c = c &&& 0xFE := by
    simp only [set_interrupt_mode_write, LEVEL_MODE, COMPARATOR_MODE,
      if_neg d1, if_neg d2]
  obtain ⟨m1, m2, m3, m4, m5, m6, m7, m8, m9, m10, m11, m12⟩ :=
    fallback_mask_facts c hc
  rw [e1, e2, e3, e4, e5, e6]
  exact ⟨rfl, m1, m2, rfl, m3, m4, rfl, m5, m6, rfl, m7, m8, rfl, m9, m10,
    rfl, m11, m12⟩

/-- Witness for C5 at register byte 0xFF and out-of-range arguments 7, -1
and 5 for the three enumeration shapes. -/
theorem C5_unrecognized_fallback_witness :
    set_temp_res_write 7 0xFF = 0xFF &&& 0x3F ∧
    set_temp_res_write 7 0xFF &&& 0xC0 = 0 ∧
    set_temp_res_write 7 0xFF &&& 0x3F = 0xFF &&& 0x3F ∧
    set_humid_res_write 7 0xFF = 0xFF &&& 0xCF ∧
    set_humid_res_write 7 0xFF &&& 0x30 = 0 ∧
    set_humid_res_write 7 0xFF &&& 0xCF = 0xFF &&& 0xCF ∧
    set_measurement_mode_write 7 0xFF = 0xFF &&& 0xF9 ∧
    set_measurement_mode_write 7 0xFF &&& 0x06 = 0 ∧
    set_measurement_mode_write 7 0xFF &&& 0xF9 = 0xFF &&& 0xF9 ∧
    set_rate_write (-1) 0xFF = 0xFF &&& 0x8F ∧
    set_rate_write (-1) 0xFF &&& 0x70 = 0 ∧
    set_rate_write (-1) 0xFF &&& 0x8F = 0xFF &&& 0x8F ∧
    set_interrupt_polarity_write 5 0xFF = 0xFF &&& 0xFD ∧
    set_interrupt_polarity_write 5 0xFF &&& 0x02 = 0 ∧
    set_interrupt_polarity_write 5 0xFF &&& 0xFD = 0xFF &&& 0xFD ∧
    set_interrupt_mode_write 5 0xFF = 0xFF &&& 0xFE ∧
    set_interrupt_mode_write 5 0xFF &&& 0x01 = 0 ∧
    set_interrupt_mode_write 5 0xFF &&& 0xFE = 0xFF &&& 0xFE :=
  C5_unrecognized_fallback 0xFF (by decide) 7 (-1) 5
    (by refine ⟨?_, ?_, ?_⟩ <;> decide)
    (by refine ⟨?_, ?_, ?_, ?_, ?_, ?_, ?_, ?_⟩ <;> decide)
    (by refine ⟨?_, ?_⟩ <;> decide)

/-- C6.  Threshold setters clamp out-of-range physical inputs before
converting: `set_high_temp(200.0)` writes the same byte to the same
register as `set_high_temp(125.0)` and `set_low_humidity(-10.0)` writes the
same byte to the same register as `set_low_humidity(0.0)`; in general every
temperature input is first clamped into [-40, 125] and every humidity
input into [0, 100], and the raw conversion only sees the clamped value. -/
theorem C6_threshold_clamping (t rh : ℚ) :
    set_temp_thr_val 200 = set_temp_thr_val 125 ∧
    set_humid_thr_val (-10) = set_humid_thr_val 0 ∧
    (∀ r : Nat → Nat, trace (Call.set_high_temp 200) r = trace (Call.set_high_temp 125) r) ∧
    (∀ r : Nat → Nat,
      trace (Call.set_low_humidity (-10)) r = trace (Call.set_low_humidity 0) r) ∧
    set_temp_thr_val t = set_temp_thr_val (clampTemp t) ∧
    set_humid_thr_val rh = set_humid_thr_val (clampHumid rh) ∧
    -40 ≤ clampTemp t ∧ clampTemp t ≤ 125 ∧ 0 ≤ clampHumid rh ∧ clampHumid rh ≤ 100 := by
  have h200 : clampTemp (200 : ℚ) = 125 := clampTemp_of_ge 200 (by norm_num)
  have h125 : clampTemp (125 : ℚ) = 125 := clampTemp_of_ge 125 le_rfl
  have hm10 : clampHumid (-10 : ℚ) = 0 := by unfold clampHumid; norm_num
  have h0 : clampHumid (0 : ℚ) = 0 := by unfold clampHumid; norm_num
  have ht1 : set_temp_thr_val 200 = set_temp_thr_val 125 := by
    unfold set_temp_thr_val; rw [h200, h125]
  have hh1 : set_humid_thr_val (-10) = set_humid_thr_val 0 := by
    unfold set_humid_thr_val; rw [hm10, h0]
  refine ⟨ht1, hh1, ?_, ?_, ?_, ?_, (clampTemp_mem t).1, (clampTemp_mem t).2,
    (clampHumid_mem rh).1, (clampHumid_mem rh).2⟩
  · intro r; simp [trace, write_reg, ht1]
  · intro r; simp [trace, write_reg, hh1]
  · unfold set_temp_thr_val; rw [clampTemp_clampTemp]
  · unfold set_humid_thr_val; rw [clampHumid_clampHumid]

/-- C7.  Round-trip through the low-temperature threshold register:
`set_low_temp(25.0)` converts via `int(256*(25+40)/165) & 0xFF = 100` and
writes that byte to register 0x0A; `read_low_temp_threshold()` reads that
register and converts back via `raw*165/256 - 40`, giving 24.453125, which
is within one quantization step 165/256 of 25.0. -/
theorem C7_low_temp_roundtrip :
    clampTemp 25 = 25 ∧
    set_temp_thr_val 25 = 100 ∧
    (∀ r : Nat → Nat,
      trace (Call.set_low_temp 25) r = [DriverOp.writeReg TEMP_THR_L 100]) ∧
    (∀ r : Nat → Nat,
      trace Call.read_low_temp_threshold r = [DriverOp.readReg TEMP_THR_L]) ∧
    read_temp_threshold_val 100 = (100 : ℚ) * 165 / 256 - 40 ∧
    |(25 : ℚ) - read_temp_threshold_val (set_temp_thr_val 25)| ≤ 165 / 256 := by
  refine ⟨by unfold clampTemp; norm_num, set_temp_thr_val_at_25, ?_, fun r => rfl, rfl, ?_⟩
  · intro r
    have hm : set_temp_thr_val 25 &&& 0xFF = 100 := by
      rw [set_temp_thr_val_at_25]
      decide
    simp only [trace, write_reg, hm]
  · rw [set_temp_thr_val_at_25]
    norm_num [read_temp_threshold_val, abs_le]

/-- C8.  For every byte the transport returns for the configuration
register, `reset()` issues exactly one register write — to the
device-configuration register, with the value read OR 0x80 — and its only
action after that write is a 50 ms sleep (meeting the minimum of 50 ms),
so no further bus traffic occurs from `reset()` after the write. -/
theorem C8_reset_single_write_then_sleep (r : Nat → Nat) :
    trace Call.reset r =
      [DriverOp.readReg CONFIG, DriverOp.writeReg CONFIG (read_byte r 0 ||| 0x80),
       DriverOp.sleepMs 50] ∧
    countWrites (trace Call.reset r) = 1 ∧
    (trace Call.reset r).drop 2 = [DriverOp.sleepMs 50] ∧
    (∀ op ∈ (trace Call.reset r).drop 2, isBusOp op = false) ∧
    50 ≤ 50 := by
  have hb := or80_mask_byte (read_byte r 0) (read_byte_lt r 0)
  refine ⟨?_, rfl, rfl, ?_, le_rfl⟩
  · simp only [trace, write_reg, reset_write, hb]
  · intro op hop
    simp only [trace, List.drop, List.mem_singleton] at hop
    subst hop
    rfl

/-- C9.  For every public driver operation, every Python argument and every
sequence of bytes returned by the transport, each register write the
operation issues targets an offset in 0x00..0x0F; in particular no write
ever targets the manufacturer-ID registers 0xFC/0xFD or the device-ID
registers 0xFE/0xFF. -/
theorem C9_no_write_to_id_registers (call : Call) (r : Nat → Nat) (a : Nat)
    (h : a ∈ writeAddrs (trace call r)) :
    a ≤ 0x0F ∧ a ≠ MID_L ∧ a ≠ MID_H ∧ a ≠ DEVICE_ID_L ∧ a ≠ DEVICE_ID_H := by
  have ha : a ≤ 0x0F := by
    cases call <;>
      simp only [trace, writeAddrs, write_reg, write_reg_int,
        TEMP_LOW, TEMP_HIGH, HUMID_LOW, HUMID_HIGH, INTERRUPT_DRDY, TEMP_MAX,
        HUMID_MAX, INTERRUPT_CONFIG, TEMP_OFFSET_ADJ, HUM_OFFSET_ADJ,
        TEMP_THR_L, TEMP_THR_H, HUMID_THR_L, HUMID_THR_H, CONFIG, MEAS_CFG,
        List.mem_cons, List.not_mem_nil, List.mem_singleton, or_false] at h <;>
      omega
  refine ⟨ha, ?_, ?_, ?_, ?_⟩ <;>
    simp only [MID_L, MID_H, DEVICE_ID_L, DEVICE_ID_H] <;> omega

/-- Witness for C9: the write issued by `clear_max_temp` targets register
0x05, which is in 0x00..0x0F and is not an identification register. -/
theorem C9_no_write_to_id_registers_witness :
    (5 : Nat) ≤ 0x0F ∧ (5 : Nat) ≠ MID_L ∧ (5 : Nat) ≠ MID_H ∧
    (5 : Nat) ≠ DEVICE_ID_L ∧ (5 : Nat) ≠ DEVICE_ID_H :=
  C9_no_write_to_id_registers Call.clear_max_temp (fun _ => 0) 5 (by decide)

/-- C10.  At and past the upper clamp boundary the final 8-bit mask wraps
the converted value to zero: for every temperature input of at least 125.0
the threshold setters write byte 0x00 (int(256*(125+40)/165) = 256, and
256 & 0xFF = 0) and the threshold read-back then returns -40.0; for every
humidity input of at least 100.0 the humidity setters write 0x00 and the
read-back returns 0.0; at the boundary the round-trip error is the full
scale of 165 degrees rather than one quantization step. -/
theorem C10_boundary_wraparound (t rh : ℚ) (ht : 125 ≤ t) (hh : 100 ≤ rh) :
    set_temp_thr_val t = 0 ∧
    set_humid_thr_val rh = 0 ∧
    read_temp_threshold_val (set_temp_thr_val t) = -40 ∧
    read_humid_threshold_val (set_humid_thr_val rh) = 0 ∧
    |(125 : ℚ) - read_temp_threshold_val (set_temp_thr_val 125)| = 165 ∧
    (∀ r : Nat → Nat,
      trace (Call.set_high_temp t) r = [DriverOp.writeReg TEMP_THR_H 0]) ∧
    (∀ r : Nat → Nat,
      trace (Call.set_low_temp t) r = [DriverOp.writeReg TEMP_THR_L 0]) ∧
    (∀ r : Nat → Nat,
      trace (Call.set_high_humidity rh) r = [DriverOp.writeReg HUMID_THR_H 0]) ∧
    (∀ r : Nat → Nat,
      trace (Call.set_low_humidity rh) r = [DriverOp.writeReg HUMID_THR_L 0]) := by
  have h1 : set_temp_thr_val t = 0 := by
    unfold set_temp_thr_val
    rw [clampTemp_of_ge t ht]
    norm_num [byteOfInt, pyInt]
  have h2 : set_humid_thr_val rh = 0 := by
    unfold set_humid_thr_val
    rw [clampHumid_of_ge rh hh]
    norm_num [byteOfInt, pyInt]
  have h3 : read_temp_threshold_val 0 = -40 := by
    norm_num [read_temp_threshold_val]
  have h4 : read_humid_threshold_val 0 = 0 := by
    norm_num [read_humid_threshold_val]
  refine ⟨h1, h2, by rw [h1]; exact h3, by rw [h2]; exact h4, ?_, ?_, ?_, ?_, ?_⟩
  · rw [set_temp_thr_val_at_125, h3]
    norm_num
  · intro r; simp only [trace, write_reg, h1, Nat.zero_and]
  · intro r; simp only [trace, write_reg, h1, Nat.zero_and]
  · intro r; simp only [trace, write_reg, h2, Nat.zero_and]
  · intro r; simp only [trace, write_reg, h2, Nat.zero_and]

/-- Witness for C10 at the boundary inputs t = 125.0, rh = 100.0. -/
theorem C10_boundary_wraparound_witness :
    set_temp_thr_val 125 = 0 ∧
    set_humid_thr_val 100 = 0 ∧
    read_temp_threshold_val (set_temp_thr_val 125) = -40 ∧
    read_humid_threshold_val (set_humid_thr_val 100) = 0 ∧
    |(125 : ℚ) - read_temp_threshold_val (set_temp_thr_val 125)| = 165 ∧
    (∀ r : Nat → Nat,
      trace (Call.set_high_temp 125) r = [DriverOp.writeReg TEMP_THR_H 0]) ∧
    (∀ r : Nat → Nat,
      trace (Call.set_low_temp 125) r = [DriverOp.writeReg TEMP_THR_L 0]) ∧
    (∀ r : Nat → Nat,
      trace (Call.set_high_humidity 100) r = [DriverOp.writeReg HUMID_THR_H 0]) ∧
    (∀ r : Nat → Nat,
      trace (Call.set_low_humidity 100) r = [DriverOp.writeReg HUMID_THR_L 0]) :=
  C10_boundary_wraparound 125 100 le_rfl le_rfl

end HDC2080
